import Mathlib

/-!
# Verification of the Amana Marketing Server (src/server.js)

A shallow embedding of the Express route handlers in `src/server.js`.
Each handler is modelled as a pure Lean function from the request inputs
(query parameters, JSON body) and the file contents it reads (the campaigns
document, the user lists) to an HTTP response (status code plus a typed
JSON body).

Modelling conventions:
* Express query parameters are `Option String` (`none` = absent).  The JS
  truthiness test `!x` on a query parameter is true exactly when the
  parameter is absent or the empty string; the embedding spells this out.
* JSON scalar values appearing in dynamically-typed positions (entries of
  the `creativeIds` request array, the `a_b_test_variant` field of a
  creative) are modelled by `JSValue`; an absent object field is
  `JSValue.jundefined`.  Nested arrays/objects inside the `creativeIds`
  list and non-integral JSON numbers in those positions are outside the
  model (none of the verified properties touch them).
* JSON error bodies of shape `{error, message}` are modelled by a
  constructor carrying the two strings; the constant `example` field that
  two of the 400 bodies additionally carry is elided, being a fixed
  literal.
* `parseInt(s, 10)` is modelled by `parseIntBase10`: skip leading
  whitespace, an optional sign, then the maximal run of decimal digits;
  no digits means `NaN`, modelled as `none`.
-/

set_option autoImplicit false

namespace AmanaMarketing

/-- A JavaScript scalar value, as found in dynamically-typed JSON
positions.  `jundefined` models an absent object field. -/
inductive JSValue where
  | jundefined
  | jnull
  | jbool (b : Bool)
  | jnum (n : Int)
  | jstr (s : String)
  deriving DecidableEq, Repr

/-- JavaScript falsiness for the scalar values of `JSValue`:
`undefined`, `null`, `false`, `0` and the empty string are falsy. -/
def JSValue.falsy : JSValue → Bool
  | .jundefined => true
  | .jnull => true
  | .jbool b => !b
  | .jnum n => n == 0
  | .jstr s => s == ""

/-- JavaScript `String(v)` on scalar values (used by `parseInt` when its
argument is not already a string). -/
def JSValue.jsToString : JSValue → String
  | .jundefined => "undefined"
  | .jnull => "null"
  | .jbool b => if b then "true" else "false"
  | .jnum n => toString n
  | .jstr s => s

/-- `Array.prototype.join` stringifies `null`/`undefined` elements to the
empty string, unlike `String(v)`. -/
def JSValue.joinToString : JSValue → String
  | .jundefined => ""
  | .jnull => ""
  | v => v.jsToString

/-- Whitespace skipped by `parseInt` (the common ASCII whitespace). -/
def isJsSpace (c : Char) : Bool :=
  c == ' ' || c == '\t' || c == '\n' || c == '\r'

/-- Numeric value of a run of decimal digit characters. -/
def natOfDigits (ds : List Char) : Nat :=
  ds.foldl (fun a c => a * 10 + (c.toNat - 48)) 0

/-- JS `parseInt(s, 10)`: skip leading whitespace, read an optional sign,
then the maximal run of decimal digits; `NaN` (here `none`) when no digit
follows. -/
def parseIntBase10 (s : String) : Option Int :=
  let cs := s.data.dropWhile isJsSpace
  let sign : Int := if cs.head? = some '-' then -1 else 1
  let rest : List Char :=
    if cs.head? = some '-' ∨ cs.head? = some '+' then cs.tail else cs
  let ds := rest.takeWhile Char.isDigit
  if ds.isEmpty then none
  else some (sign * (natOfDigits ds : Int))

/-- `parseInt(id, 10)` as applied to a `creativeIds` array entry: JS first
coerces the argument to a string. -/
def parseCreativeIdVal (v : JSValue) : Option Int :=
  parseIntBase10 v.jsToString

/-! ## The data model (src/data/marketing-data.json, §3 of the spec) -/

/-- One entry of a campaign's `regional_performance` array. -/
structure RegionalPerformance where
  region : String
  country : String
  impressions : Int
  clicks : Int
  conversions : Int
  spend : Rat
  revenue : Rat
  ctr : Rat
  conversion_rate : Rat
  cpc : Rat
  cpa : Rat
  roas : Rat
  deriving DecidableEq, Repr

/-- One entry of a campaign's `creatives` array.  `a_b_test_variant` is
dynamically typed (optional in the data), hence `JSValue`. -/
structure Creative where
  id : Int
  name : String
  format : String
  url : String
  performance_score : Rat
  is_primary : Bool
  impressions : Int
  clicks : Int
  ctr : Rat
  a_b_test_variant : JSValue
  deriving DecidableEq, Repr

/-- A campaign.  The `regional_performance` and `creatives` collections may
be absent from a campaign object (`none`); the handlers test for this
(`if (campaign.regional_performance)`, `if (campaign.creatives)`). -/
structure Campaign where
  id : Int
  name : String
  status : String
  medium : String
  regional_performance : Option (List RegionalPerformance)
  creatives : Option (List Creative)
  deriving DecidableEq, Repr

/-- The parsed campaigns document (`marketing-data.json`). -/
structure MarketingData where
  campaigns : List Campaign
  deriving DecidableEq, Repr

/-- A record of `users.json` / `encrypted-users.json`. -/
structure User where
  id : Int
  username : String
  password : String
  email : String
  role : String
  deriving DecidableEq, Repr

/-! ## GET /campaign-data (src/server.js lines 56-87) -/

/-- Body of a `/campaign-data` response: an `{error, message}` object or a
single campaign object. -/
inductive CampaignDataBody where
  | errorBody (error message : String)
  | campaignBody (c : Campaign)
  deriving DecidableEq, Repr

/-- A `/campaign-data` response. -/
structure CampaignDataResponse where
  status : Nat
  body : CampaignDataBody
  deriving DecidableEq, Repr

/-- The `/campaign-data` handler.  `campaignId` is the query parameter
(`none` when absent); `!campaignId` is truthy-false exactly on `none` and
the empty string. -/
def campaignData (data : MarketingData) (campaignId : Option String) :
    CampaignDataResponse :=
  if campaignId = none ∨ campaignId = some "" then
    ⟨400, .errorBody "Missing campaign ID" "campaignId query parameter is required"⟩
  else
    match parseIntBase10 ((campaignId.getD "")) with
    | none =>
        ⟨400, .errorBody "Invalid campaign ID" "campaignId must be a valid number"⟩
    | some numericCampaignId =>
        match data.campaigns.find? (fun c => c.id == numericCampaignId) with
        | none =>
            ⟨404, .errorBody "Campaign not found" "No campaign found with the provided ID"⟩
        | some campaign => ⟨200, .campaignBody campaign⟩

/-! ## GET /region-data (src/server.js lines 91-138) -/

/-- A value of a field of a regional-summary row: a string or a JSON
number (integer counters and decimal metrics alike). -/
inductive RVal where
  | rstr (s : String)
  | rnum (q : Rat)
  deriving DecidableEq, Repr

/-- A regional-summary row, as the ordered JSON object the handler pushes:
an association list of field name to value. -/
abbrev RegionRow := List (String × RVal)

/-- The object literal pushed for a matching campaign (src/server.js lines
110-125).  The `campaign` field is `campaign.id.toString()`, a string. -/
def regionRow (campaign : Campaign) (rp : RegionalPerformance) : RegionRow :=
  [("campaign", .rstr (toString campaign.id)),
   ("name", .rstr campaign.name),
   ("region", .rstr rp.region),
   ("country", .rstr rp.country),
   ("impressions", .rnum rp.impressions),
   ("clicks", .rnum rp.clicks),
   ("conversions", .rnum rp.conversions),
   ("spend", .rnum rp.spend),
   ("revenue", .rnum rp.revenue),
   ("ctr", .rnum rp.ctr),
   ("conversion_rate", .rnum rp.conversion_rate),
   ("cpc", .rnum rp.cpc),
   ("cpa", .rnum rp.cpa),
   ("roas", .rnum rp.roas)]

/-- The `forEach`/`push` accumulation over `data.campaigns`: for each
campaign with a `regional_performance` collection, `find` the first entry
for the region and push its row. -/
def regionalRows (campaigns : List Campaign) (region : String) : List RegionRow :=
  campaigns.foldl
    (fun acc campaign =>
      match campaign.regional_performance with
      | some rps =>
          match rps.find? (fun rp => rp.region == region) with
          | some rp => acc ++ [regionRow campaign rp]
          | none => acc
      | none => acc)
    []

/-- Body of a `/region-data` response. -/
inductive RegionDataBody where
  | errorBody (error message : String)
  | rowsBody (rows : List RegionRow)
  deriving DecidableEq, Repr

/-- A `/region-data` response. -/
structure RegionDataResponse where
  status : Nat
  body : RegionDataBody
  deriving DecidableEq, Repr

/-- The `/region-data` handler. -/
def regionData (data : MarketingData) (region : Option String) :
    RegionDataResponse :=
  if region = none ∨ region = some "" then
    ⟨400, .errorBody "Missing region" "region query parameter is required"⟩
  else
    let r := region.getD ""
    let regionalData := regionalRows data.campaigns r
    if regionalData.isEmpty then
      ⟨404, .errorBody "No campaigns found" ("No campaigns found for region: " ++ r)⟩
    else
      ⟨200, .rowsBody regionalData⟩

/-! ## POST /creative-data (src/server.js lines 143-219) -/

/-- One row of the creative-performance result (src/server.js lines
185-200).  `a_b_test_variant` holds the value of
`creative.a_b_test_variant || null`. -/
structure CreativeRow where
  campaign_id : Int
  campaign_name : String
  campaign_status : String
  campaign_medium : String
  creative_id : Int
  creative_name : String
  creative_format : String
  creative_url : String
  performance_score : Rat
  is_primary : Bool
  impressions : Int
  clicks : Int
  ctr : Rat
  a_b_test_variant : JSValue
  deriving DecidableEq, Repr

/-- The row pushed for a matching creative; `creative.a_b_test_variant ||
null` evaluates to `null` exactly when the stored value is falsy. -/
def creativeRow (campaign : Campaign) (creative : Creative) : CreativeRow :=
  { campaign_id := campaign.id
    campaign_name := campaign.name
    campaign_status := campaign.status
    campaign_medium := campaign.medium
    creative_id := creative.id
    creative_name := creative.name
    creative_format := creative.format
    creative_url := creative.url
    performance_score := creative.performance_score
    is_primary := creative.is_primary
    impressions := creative.impressions
    clicks := creative.clicks
    ctr := creative.ctr
    a_b_test_variant :=
      if creative.a_b_test_variant.falsy then .jnull else creative.a_b_test_variant }

/-- The nested `forEach` accumulation over all campaigns' creatives. -/
def creativeRowsAcc (campaigns : List Campaign) (numericCreativeIds : List Int) :
    List CreativeRow :=
  campaigns.foldl
    (fun acc campaign =>
      match campaign.creatives with
      | some cs =>
          cs.foldl
            (fun acc2 creative =>
              if numericCreativeIds.contains creative.id then
                acc2 ++ [creativeRow campaign creative]
              else acc2)
            acc
      | none => acc)
    []

/-- Body of a `/creative-data` response: an error object or the success
object `{message, requested_ids, found_creatives, data}`. -/
inductive CreativeDataBody where
  | errorBody (error message : String)
  | successBody (message : String) (requested_ids : List JSValue)
      (found_creatives : Nat) (rows : List CreativeRow)
  deriving DecidableEq, Repr

/-- A `/creative-data` response. -/
structure CreativeDataResponse where
  status : Nat
  body : CreativeDataBody
  deriving DecidableEq, Repr

/-- The `/creative-data` handler.  `creativeIds` is the body field;
`none` models both an absent field and a non-array value (the handler
rejects both identically). -/
def creativeData (data : MarketingData) (creativeIds : Option (List JSValue)) :
    CreativeDataResponse :=
  match creativeIds with
  | none =>
      ⟨400, .errorBody "Missing or invalid creative IDs"
        "creativeIds must be provided as an array in the request body"⟩
  | some ids =>
      if ids.isEmpty then
        ⟨400, .errorBody "Empty creative IDs array" "Please provide at least one creative ID"⟩
      else
        let numericCreativeIds := ids.filterMap parseCreativeIdVal
        if numericCreativeIds.isEmpty then
          ⟨400, .errorBody "Invalid creative IDs" "All creative IDs must be valid numbers"⟩
        else
          let creativePerformanceData := creativeRowsAcc data.campaigns numericCreativeIds
          if creativePerformanceData.isEmpty then
            ⟨404, .errorBody "No creatives found"
              ("No creatives found for the provided IDs: " ++
                String.intercalate ", " (ids.map JSValue.joinToString))⟩
          else
            ⟨200, .successBody "Creative performance data retrieved successfully"
              ids creativePerformanceData.length creativePerformanceData⟩

/-! ## The Obfuscation Codec (src/auth/decrypt.js, not in the snapshot) -/

/-- Shift a letter by `k` positions within its 26-letter case range,
wrapping around; `base` is the code point of the range's first letter. -/
def shiftLetter (base k : Nat) (c : Char) : Char :=
  Char.ofNat (base + ((c.toNat - base) + k) % 26)

/-- Shift any character by `k` within its alphabet when it is a Latin
letter; other characters (digits, punctuation) are unchanged. -/
def shiftChar (k : Nat) (c : Char) : Char :=
  if 97 ≤ c.toNat ∧ c.toNat ≤ 122 then shiftLetter 97 k c
  else if 65 ≤ c.toNat ∧ c.toNat ≤ 90 then shiftLetter 65 k c
  else c

/-- Modelled from the spec: the Obfuscation Codec's encoding transform.
`src/auth/decrypt.js` is not part of the snapshot; §4.2 describes the
codec as a fixed, deterministic, reversible symmetric substitution keyed
by a constant.  The test vectors in the comments of `src/server.js`
(stored `hotlkhktpu123` for plaintext `ahmedadmin123`, `vthy789whzz` for
`omar789pass`) determine the constant: letters are shifted forward by 7,
other characters are unchanged. -/
def simpleEncrypt (s : String) : String :=
  String.mk (s.data.map (shiftChar 7))

/-- Modelled from the spec: the Obfuscation Codec's `decode`
(`simpleDecrypt` in `src/auth/decrypt.js`): shift letters back by 7
(forward by 19), other characters unchanged. -/
def simpleDecrypt (s : String) : String :=
  String.mk (s.data.map (shiftChar 19))

/-! ## The credential-gated handlers (src/server.js lines 234-313, 332-414) -/

/-- The `user` summary object embedded in grant and role-denial bodies. -/
structure UserSummary where
  id : Int
  username : String
  email : String
  role : String
  deriving DecidableEq, Repr

/-- The summary projected from a user record. -/
def summaryOf (u : User) : UserSummary :=
  ⟨u.id, u.username, u.email, u.role⟩

/-- Body of a credential-endpoint response: an `{error, message}` object
(the static `example` field of the 400 body is elided), the admin grant
`{message, user, data}`, or the `user`-role denial `{error, message,
user}`. -/
inductive ProtectedBody where
  | errorBody (error message : String)
  | grantBody (message : String) (user : UserSummary) (data : MarketingData)
  | denyBody (error message : String) (user : UserSummary)
  deriving DecidableEq, Repr

/-- A credential-endpoint response. -/
structure ProtectedResponse where
  status : Nat
  body : ProtectedBody
  deriving DecidableEq, Repr

/-- The role three-way branch shared verbatim by both credential handlers
(src/server.js lines 271-304 and 372-405), entered once the password
check has passed. -/
def roleBranch (user : User) (marketingData : MarketingData) : ProtectedResponse :=
  if user.role == "admin" then
    ⟨200, .grantBody "Access granted - Admin user authenticated" (summaryOf user) marketingData⟩
  else if user.role == "user" then
    ⟨403, .denyBody "Access denied" "User must be an admin to access this data." (summaryOf user)⟩
  else
    ⟨403, .errorBody "Access denied" "User not found"⟩

/-- The `/simple-protected-data` handler.  `users` is the parsed
`users.json` list; `username`/`password` are the query parameters. -/
def simpleProtectedData (users : List User) (marketingData : MarketingData)
    (username password : Option String) : ProtectedResponse :=
  if username = none ∨ username = some "" ∨ password = none ∨ password = some "" then
    ⟨400, .errorBody "Missing credentials" "Username and password query parameters are required"⟩
  else
    match users.find? (fun u => u.username == username.getD "") with
    | none => ⟨404, .errorBody "User not found" "User not found"⟩
    | some user =>
        if user.password ≠ password.getD "" then
          ⟨401, .errorBody "Invalid credentials" "User not found"⟩
        else
          roleBranch user marketingData

/-- The `/encrypted-protected-data` handler.  `users` is the parsed
`encrypted-users.json` list; both the stored and the supplied password go
through `simpleDecrypt` before the comparison. -/
def encryptedProtectedData (users : List User) (marketingData : MarketingData)
    (username password : Option String) : ProtectedResponse :=
  if username = none ∨ username = some "" ∨ password = none ∨ password = some "" then
    ⟨400, .errorBody "Missing credentials" "Username and password query parameters are required"⟩
  else
    match users.find? (fun u => u.username == username.getD "") with
    | none => ⟨404, .errorBody "User not found" "User not found"⟩
    | some user =>
        if simpleDecrypt user.password ≠ simpleDecrypt (password.getD "") then
          ⟨401, .errorBody "Invalid credentials" "User not found"⟩
        else
          roleBranch user marketingData

/-! ## Concrete sample data, used to instantiate the verified properties -/

/-- A sample regional-performance entry. -/
def demoRP : RegionalPerformance :=
  { region := "Dubai", country := "UAE", impressions := 50000, clicks := 1200,
    conversions := 90, spend := 2200, revenue := 8800, ctr := 2,
    conversion_rate := 7, cpc := 1, cpa := 24, roas := 4 }

/-- A sample creative with a string `a_b_test_variant`. -/
def demoCreative : Creative :=
  { id := 101, name := "Banner A", format := "image", url := "https://cdn/101",
    performance_score := 8, is_primary := true, impressions := 15000,
    clicks := 400, ctr := 2, a_b_test_variant := .jstr "A" }

/-- A sample creative whose stored `a_b_test_variant` is `false`, a falsy
non-absent value. -/
def demoCreativeFalsy : Creative :=
  { id := 102, name := "Banner B", format := "video", url := "https://cdn/102",
    performance_score := 6, is_primary := false, impressions := 9000,
    clicks := 150, ctr := 1, a_b_test_variant := .jbool false }

/-- A sample campaign with both child collections. -/
def demoCampaign1 : Campaign :=
  { id := 1, name := "Summer Sale", status := "active", medium := "social",
    regional_performance := some [demoRP],
    creatives := some [demoCreative, demoCreativeFalsy] }

/-- A sample campaign with neither child collection. -/
def demoCampaign2 : Campaign :=
  { id := 2, name := "Winter Push", status := "paused", medium := "search",
    regional_performance := none, creatives := none }

/-- A sample campaigns document. -/
def demoData : MarketingData := ⟨[demoCampaign1, demoCampaign2]⟩

/-- A campaigns document whose only campaign reports the empty string as a
region name. -/
def demoEmptyRegionData : MarketingData :=
  ⟨[{ demoCampaign1 with regional_performance := some [{ demoRP with region := "" }] }]⟩

/-- Sample plaintext users (one per role branch). -/
def demoUsers : List User :=
  [⟨1, "ahmed_hassan", "ahmedadmin123", "ahmed@amana.com", "admin"⟩,
   ⟨2, "omar_mahmoud", "omar789pass", "omar@amana.com", "user"⟩,
   ⟨3, "sara_editor", "sarapass456", "sara@amana.com", "editor"⟩]

/-- Sample obfuscated-credential users (passwords stored encoded). -/
def demoEncUsers : List User :=
  [⟨1, "ahmed_hassan", "hotlkhktpu123", "ahmed@amana.com", "admin"⟩,
   ⟨2, "omar_mahmoud", "vthy789whzz", "omar@amana.com", "user"⟩]

/-! ## Helper lemmas -/

theorem mk_data (l : List Char) : (String.mk l).data = l := rfl

theorem char_toNat_ofNat {n : Nat} (h : n.isValidChar) : (Char.ofNat n).toNat = n := by
  rw [Char.ofNat, dif_pos h]
  rfl

/-- Shifting a character forward by 7 and then by 19 returns it: the two
shifts compose to a full 26-cycle on each letter range and fix everything
else. -/
theorem shiftChar_19_7 (c : Char) : shiftChar 19 (shiftChar 7 c) = c := by
  unfold shiftChar shiftLetter
  by_cases hl : 97 ≤ c.toNat ∧ c.toNat ≤ 122
  · rw [if_pos hl]
    have hm : ((c.toNat - 97) + 7) % 26 < 26 := Nat.mod_lt _ (by omega)
    have hv : (97 + ((c.toNat - 97) + 7) % 26).isValidChar := Or.inl (by omega)
    have ht : (Char.ofNat (97 + ((c.toNat - 97) + 7) % 26)).toNat
        = 97 + ((c.toNat - 97) + 7) % 26 := char_toNat_ofNat hv
    rw [if_pos (by rw [ht]; omega)]
    rw [ht]
    have : 97 + (97 + ((c.toNat - 97) + 7) % 26 - 97 + 19) % 26 = c.toNat := by omega
    rw [this, Char.ofNat_toNat]
  · rw [if_neg hl]
    by_cases hu : 65 ≤ c.toNat ∧ c.toNat ≤ 90
    · rw [if_pos hu]
      have hm : ((c.toNat - 65) + 7) % 26 < 26 := Nat.mod_lt _ (by omega)
      have hv : (65 + ((c.toNat - 65) + 7) % 26).isValidChar := Or.inl (by omega)
      have ht : (Char.ofNat (65 + ((c.toNat - 65) + 7) % 26)).toNat
          = 65 + ((c.toNat - 65) + 7) % 26 := char_toNat_ofNat hv
      rw [if_neg (by rw [ht]; omega), if_pos (by rw [ht]; omega)]
      rw [ht]
      have : 65 + (65 + ((c.toNat - 65) + 7) % 26 - 65 + 19) % 26 = c.toNat := by omega
      rw [this, Char.ofNat_toNat]
    · rw [if_neg hu, if_neg hl, if_neg hu]

/-- A decimal digit is not `parseInt` whitespace. -/
theorem isJsSpace_eq_false_of_isDigit {c : Char} (h : c.isDigit = true) :
    isJsSpace c = false := by
  by_contra hs
  rw [Bool.not_eq_false] at hs
  simp only [isJsSpace, Bool.or_eq_true, beq_iff_eq] at hs
  rcases hs with ((rfl | rfl) | rfl) | rfl <;> exact absurd h (by decide)

/-- A decimal digit is not a sign character. -/
theorem ne_sign_of_isDigit {c : Char} (h : c.isDigit = true) : c ≠ '-' ∧ c ≠ '+' := by
  constructor <;> rintro rfl <;> exact absurd h (by decide)

theorem takeWhile_append_of_all {α} (p : α → Bool) {l1 l2 : List α}
    (h1 : ∀ c ∈ l1, p c = true) (h2 : ∀ c, l2.head? = some c → p c = false) :
    (l1 ++ l2).takeWhile p = l1 := by
  induction l1 with
  | nil =>
      cases l2 with
      | nil => rfl
      | cons c t =>
          simp only [List.nil_append]
          exact List.takeWhile_cons_of_neg (by simp [h2 c rfl])
  | cons a t ih =>
      simp only [List.cons_append]
      rw [List.takeWhile_cons_of_pos (h1 a (by simp))]
      rw [ih (fun c hc => h1 c (by simp [hc]))]

/-- `parseIntBase10` on a string made of an optional sign, a nonempty run
of digits, and a remainder not starting with a digit: the result is the
signed value of the digit run. -/
theorem parseIntBase10_mk (sgn ds rest : List Char)
    (hsgn : sgn = [] ∨ sgn = ['+'] ∨ sgn = ['-'])
    (hne : ds ≠ []) (hdig : ∀ c ∈ ds, c.isDigit = true)
    (hrest : ∀ c, rest.head? = some c → c.isDigit = false) :
    parseIntBase10 (String.mk (sgn ++ ds ++ rest)) =
      some ((if sgn = ['-'] then -1 else 1) * (natOfDigits ds : Int)) := by
  obtain ⟨d, ds', rfl⟩ : ∃ d ds', ds = d :: ds' := by
    cases ds with
    | nil => exact absurd rfl hne
    | cons d ds' => exact ⟨d, ds', rfl⟩
  have hd : d.isDigit = true := hdig d (by simp)
  have htw : List.takeWhile Char.isDigit (d :: (ds' ++ rest)) = d :: ds' := by
    have h := takeWhile_append_of_all Char.isDigit hdig hrest
    simpa using h
  rcases hsgn with rfl | rfl | rfl
  · rw [parseIntBase10, mk_data]
    simp only [List.nil_append, List.cons_append]
    have hdrop : List.dropWhile isJsSpace (d :: (ds' ++ rest)) = d :: (ds' ++ rest) :=
      List.dropWhile_cons_of_neg (by simp [isJsSpace_eq_false_of_isDigit hd])
    simp only [hdrop, List.head?_cons, List.tail_cons]
    have hd' := ne_sign_of_isDigit hd
    have hc1 : ¬ ((some d = some '-') ∨ (some d = some '+')) := by
      simp [hd'.1, hd'.2]
    have hc2 : ¬ (some d = some '-') := by simp [hd'.1]
    rw [if_neg hc1]
    simp only [htw]
    rw [if_neg (by simp), if_neg hc2, if_neg (by simp)]
  · rw [parseIntBase10, mk_data]
    simp only [List.cons_append, List.nil_append]
    have hdrop : List.dropWhile isJsSpace ('+' :: d :: (ds' ++ rest)) = '+' :: d :: (ds' ++ rest) :=
      List.dropWhile_cons_of_neg (by decide)
    simp only [hdrop, List.head?_cons, List.tail_cons]
    rw [if_pos (Or.inr trivial)]
    simp only [htw]
    rw [if_neg (by simp), if_neg (by decide), if_neg (by decide)]
  · rw [parseIntBase10, mk_data]
    simp only [List.cons_append, List.nil_append]
    have hdrop : List.dropWhile isJsSpace ('-' :: d :: (ds' ++ rest)) = '-' :: d :: (ds' ++ rest) :=
      List.dropWhile_cons_of_neg (by decide)
    simp only [hdrop, List.head?_cons, List.tail_cons]
    rw [if_pos (Or.inl trivial)]
    simp only [htw]
    rw [if_neg (by simp), if_pos trivial]

/-- `parseInt` never succeeds on the empty string. -/
theorem parse_some_ne_empty {s : String} {n : Int}
    (hparse : parseIntBase10 s = some n) : s ≠ "" := by
  rintro rfl
  rw [show parseIntBase10 "" = none from rfl] at hparse
  cases hparse

/-- /campaign-data, missing parameter branch. -/
theorem campaignData_none_eq (data : MarketingData) :
    campaignData data none =
      ⟨400, .errorBody "Missing campaign ID" "campaignId query parameter is required"⟩ := by
  rw [campaignData, if_pos (Or.inl rfl)]

/-- /campaign-data, empty-string parameter: the same truthiness branch. -/
theorem campaignData_empty_eq (data : MarketingData) :
    campaignData data (some "") =
      ⟨400, .errorBody "Missing campaign ID" "campaignId query parameter is required"⟩ := by
  rw [campaignData, if_pos (Or.inr rfl)]

/-- /campaign-data, non-numeric parameter branch. -/
theorem campaignData_nan_eq (data : MarketingData) (s : String) (hs : s ≠ "")
    (hp : parseIntBase10 s = none) :
    campaignData data (some s) =
      ⟨400, .errorBody "Invalid campaign ID" "campaignId must be a valid number"⟩ := by
  rw [campaignData, if_neg (by simp [hs])]
  simp only [Option.getD_some, hp]

/-- /campaign-data, successful lookup branch. -/
theorem campaignData_found_eq (data : MarketingData) (s : String) (n : Int) (c : Campaign)
    (hp : parseIntBase10 s = some n)
    (hfind : data.campaigns.find? (fun c => c.id == n) = some c) :
    campaignData data (some s) = ⟨200, .campaignBody c⟩ := by
  rw [campaignData, if_neg (by simp [parse_some_ne_empty hp])]
  simp only [Option.getD_some, hp, hfind]

/-- /campaign-data, no-match branch. -/
theorem campaignData_notfound_eq (data : MarketingData) (s : String) (n : Int)
    (hp : parseIntBase10 s = some n)
    (hfind : data.campaigns.find? (fun c => c.id == n) = none) :
    campaignData data (some s) =
      ⟨404, .errorBody "Campaign not found" "No campaign found with the provided ID"⟩ := by
  rw [campaignData, if_neg (by simp [parse_some_ne_empty hp])]
  simp only [Option.getD_some, hp, hfind]

/-- C4: for every numeric campaignId value present in the campaigns
dataset, GET /campaign-data returns status 200 with exactly one Campaign
object whose id equals the requested value. -/
theorem campaignData_found_unique_match (data : MarketingData) (s : String) (n : Int)
    (hparse : parseIntBase10 s = some n)
    (hmem : ∃ c ∈ data.campaigns, c.id = n) :
    ∃ c, campaignData data (some s) = ⟨200, .campaignBody c⟩ ∧ c.id = n ∧ c ∈ data.campaigns := by
  have hsome : (data.campaigns.find? (fun c => c.id == n)).isSome := by
    rw [List.find?_isSome]
    obtain ⟨c, hc, hid⟩ := hmem
    exact ⟨c, hc, by simp [hid]⟩
  obtain ⟨c, hfind⟩ := Option.isSome_iff_exists.mp hsome
  refine ⟨c, campaignData_found_eq data s n c hparse hfind, ?_,
    List.mem_of_find?_eq_some hfind⟩
  have := List.find?_some hfind
  simpa using this

theorem campaignData_found_unique_match_witness :
    ∃ c, campaignData demoData (some "2") = ⟨200, .campaignBody c⟩ ∧
      c.id = 2 ∧ c ∈ demoData.campaigns :=
  campaignData_found_unique_match demoData "2" 2 (by decide)
    ⟨demoCampaign2, by simp [demoData], rfl⟩

/-- C5: for GET /campaign-data, a missing parameter yields 400, a
non-numeric value (one `parseInt` cannot read a digit from) yields 400,
and a numeric value matching no campaign yields 404. -/
theorem campaignData_error_statuses (data : MarketingData) :
    (campaignData data none).status = 400 ∧
    (∀ s : String, parseIntBase10 s = none → (campaignData data (some s)).status = 400) ∧
    (∀ (s : String) (n : Int), parseIntBase10 s = some n →
      (∀ c ∈ data.campaigns, c.id ≠ n) →
      campaignData data (some s) =
        ⟨404, .errorBody "Campaign not found" "No campaign found with the provided ID"⟩) := by
  refine ⟨?_, ?_, ?_⟩
  · rw [campaignData_none_eq]
  · intro s hp
    by_cases hs : s = ""
    · subst hs
      rw [campaignData_empty_eq]
    · rw [campaignData_nan_eq data s hs hp]
  · intro s n hp hall
    refine campaignData_notfound_eq data s n hp ?_
    rw [List.find?_eq_none]
    intro c hc
    simp [hall c hc]

theorem campaignData_error_statuses_witness :
    (campaignData demoData none).status = 400 ∧
    (campaignData demoData (some "abc")).status = 400 ∧
    campaignData demoData (some "99") =
      ⟨404, .errorBody "Campaign not found" "No campaign found with the provided ID"⟩ := by
  obtain ⟨h1, h2, h3⟩ := campaignData_error_statuses demoData
  exact ⟨h1, h2 "abc" (by decide), h3 "99" 99 (by decide) (by decide)⟩

/-- C9: a campaignId whose string starts with an optionally signed digit
but has trailing non-digit characters is not rejected with 400: parseInt
coerces it to the value of its leading numeric prefix and the lookup
proceeds with that integer (200 when a campaign with that id exists,
otherwise 404). -/
theorem campaignData_trailing_junk_coerced (data : MarketingData)
    (sgn ds rs : List Char) (r : Char)
    (hsgn : sgn = [] ∨ sgn = ['+'] ∨ sgn = ['-'])
    (hne : ds ≠ []) (hdig : ∀ c ∈ ds, c.isDigit = true)
    (hr : r.isDigit = false) :
    (campaignData data (some (String.mk (sgn ++ ds ++ (r :: rs))))).status ≠ 400 ∧
    ((∃ c ∈ data.campaigns,
        c.id = (if sgn = ['-'] then -1 else 1) * (natOfDigits ds : Int)) →
      (campaignData data (some (String.mk (sgn ++ ds ++ (r :: rs))))).status = 200) ∧
    ((∀ c ∈ data.campaigns,
        c.id ≠ (if sgn = ['-'] then -1 else 1) * (natOfDigits ds : Int)) →
      (campaignData data (some (String.mk (sgn ++ ds ++ (r :: rs))))).status = 404) := by
  have hparse := parseIntBase10_mk sgn ds (r :: rs) hsgn hne hdig
    (fun c hc => by
      simp only [List.head?_cons, Option.some.injEq] at hc
      exact hc ▸ hr)
  refine ⟨?_, ?_, ?_⟩
  · intro h400
    rcases hcase : data.campaigns.find?
        (fun c => c.id == (if sgn = ['-'] then -1 else 1) * (natOfDigits ds : Int)) with _ | c
    · rw [campaignData_notfound_eq data _ _ hparse hcase] at h400
      cases h400
    · rw [campaignData_found_eq data _ _ c hparse hcase] at h400
      cases h400
  · intro hmem
    have hsome : (data.campaigns.find?
        (fun c => c.id == (if sgn = ['-'] then -1 else 1) * (natOfDigits ds : Int))).isSome := by
      rw [List.find?_isSome]
      obtain ⟨c, hc, hid⟩ := hmem
      exact ⟨c, hc, by simp [hid]⟩
    obtain ⟨c, hfind⟩ := Option.isSome_iff_exists.mp hsome
    rw [campaignData_found_eq data _ _ c hparse hfind]
  · intro hall
    have hfind : data.campaigns.find?
        (fun c => c.id == (if sgn = ['-'] then -1 else 1) * (natOfDigits ds : Int)) = none := by
      rw [List.find?_eq_none]
      intro c hc
      have h2 := hall c hc
      by_cases hm : sgn = ['-'] <;> simp [hm] at h2 ⊢ <;> exact h2
    rw [campaignData_notfound_eq data _ _ hparse hfind]

theorem campaignData_trailing_junk_coerced_witness :
    (campaignData demoData (some "2abc")).status = 200 := by
  have h := campaignData_trailing_junk_coerced demoData [] ['2'] ['b', 'c'] 'a'
    (Or.inl rfl) (by decide) (by decide) (by decide)
  exact h.2.1 ⟨demoCampaign2, by simp [demoData], by decide⟩

/-- C8: the Obfuscation Codec's decode is a left inverse of its encoding
transform: `decode (transform x) = x` for every string, in particular for
every string over the valid input alphabet. -/
theorem decode_transform_roundtrip (s : String) : simpleDecrypt (simpleEncrypt s) = s := by
  have h : shiftChar 19 ∘ shiftChar 7 = id := funext shiftChar_19_7
  simp only [simpleDecrypt, simpleEncrypt, List.map_map, h, List.map_id]

/-- The push-accumulation of the region scan, described as a `filterMap`:
one row per campaign (in order) whose collection holds a matching entry,
campaigns without the collection skipped. -/
theorem regionalRows_eq_filterMap (campaigns : List Campaign) (region : String) :
    regionalRows campaigns region =
      campaigns.filterMap (fun c =>
        (c.regional_performance.bind
          (fun rps => rps.find? (fun rp => rp.region == region))).map (regionRow c)) := by
  have h : ∀ (l : List Campaign) (init : List RegionRow),
      l.foldl
        (fun acc campaign =>
          match campaign.regional_performance with
          | some rps =>
              match rps.find? (fun rp => rp.region == region) with
              | some rp => acc ++ [regionRow campaign rp]
              | none => acc
          | none => acc)
        init
      = init ++ l.filterMap (fun c =>
          (c.regional_performance.bind
            (fun rps => rps.find? (fun rp => rp.region == region))).map (regionRow c)) := by
    intro l
    induction l with
    | nil => intro init; simp
    | cons c cs ih =>
        intro init
        rw [List.foldl_cons, List.filterMap_cons]
        cases hrp : c.regional_performance with
        | none =>
            simp only [hrp, Option.none_bind, Option.map_none']
            rw [ih]
        | some rps =>
            cases hf : rps.find? (fun rp => rp.region == region) with
            | none =>
                simp only [hrp, hf, Option.some_bind, Option.map_none']
                rw [ih]
            | some rp =>
                simp only [hrp, hf, Option.some_bind, Option.map_some']
                rw [ih]
                simp
  rw [regionalRows, h campaigns []]
  simp


/-- C1 (amended): for every nonempty region string present in at least one
campaign's regional performance, GET /region-data returns 200 with the
ordered scan result: one row per campaign (in dataset order) whose
`regional_performance` collection contains an entry whose region equals
the query under exact string comparison, campaigns without the collection
skipped; each returned row carries exactly the 14 listed fields. -/
theorem regionData_present_rows (data : MarketingData) (region : String)
    (hne : region ≠ "")
    (hpresent : ∃ c ∈ data.campaigns, ∃ rps, c.regional_performance = some rps ∧
      ∃ rp ∈ rps, rp.region = region) :
    (regionData data (some region)).status = 200 ∧
    (regionData data (some region)).body = .rowsBody
      (data.campaigns.filterMap (fun c =>
        (c.regional_performance.bind
          (fun rps => rps.find? (fun rp => rp.region == region))).map (regionRow c))) ∧
    (∀ row ∈ data.campaigns.filterMap (fun c =>
        (c.regional_performance.bind
          (fun rps => rps.find? (fun rp => rp.region == region))).map (regionRow c)),
      row.map Prod.fst =
        ["campaign", "name", "region", "country", "impressions", "clicks", "conversions",
         "spend", "revenue", "ctr", "conversion_rate", "cpc", "cpa", "roas"]) := by
  obtain ⟨c, hc, rps, hrps, rp, hrp, hregion⟩ := hpresent
  have hfindSome : (rps.find? (fun rp => rp.region == region)).isSome := by
    rw [List.find?_isSome]
    exact ⟨rp, hrp, by simp [hregion]⟩
  obtain ⟨rp', hfind⟩ := Option.isSome_iff_exists.mp hfindSome
  have hmem : regionRow c rp' ∈ data.campaigns.filterMap (fun c =>
      (c.regional_performance.bind
        (fun rps => rps.find? (fun rp => rp.region == region))).map (regionRow c)) := by
    rw [List.mem_filterMap]
    exact ⟨c, hc, by simp [hrps, hfind]⟩
  have hnonempty : ¬ (regionalRows data.campaigns region).isEmpty = true := by
    rw [regionalRows_eq_filterMap]
    intro hempty
    rw [List.isEmpty_iff] at hempty
    rw [hempty] at hmem
    cases hmem
  have hred : regionData data (some region) =
      ⟨200, .rowsBody (regionalRows data.campaigns region)⟩ := by
    rw [regionData, if_neg (by simp [hne])]
    simp only [Option.getD_some]
    rw [if_neg hnonempty]
  refine ⟨by rw [hred], by rw [hred, regionalRows_eq_filterMap], ?_⟩
  intro row hrow
  rw [List.mem_filterMap] at hrow
  obtain ⟨c', _, hg⟩ := hrow
  cases hrps' : c'.regional_performance with
  | none => rw [hrps'] at hg; cases hg
  | some rps' =>
      rw [hrps'] at hg
      simp only [Option.some_bind] at hg
      cases hf' : rps'.find? (fun rp => rp.region == region) with
      | none => rw [hf'] at hg; cases hg
      | some rp'' =>
          rw [hf'] at hg
          simp only [Option.map_some', Option.some.injEq] at hg
          subst hg
          rfl

theorem regionData_present_rows_witness :
    (regionData demoData (some "Dubai")).status = 200 ∧
    (regionData demoData (some "Dubai")).body = .rowsBody
      (demoData.campaigns.filterMap (fun c =>
        (c.regional_performance.bind
          (fun rps => rps.find? (fun rp => rp.region == "Dubai"))).map (regionRow c))) ∧
    (∀ row ∈ demoData.campaigns.filterMap (fun c =>
        (c.regional_performance.bind
          (fun rps => rps.find? (fun rp => rp.region == "Dubai"))).map (regionRow c)),
      row.map Prod.fst =
        ["campaign", "name", "region", "country", "impressions", "clicks", "conversions",
         "spend", "revenue", "ctr", "conversion_rate", "cpc", "cpa", "roas"]) :=
  regionData_present_rows demoData "Dubai" (by decide)
    ⟨demoCampaign1, by simp [demoData], [demoRP], rfl, demoRP, by simp, rfl⟩

/-- C1, counterexample to the claim as stated: at a concrete dataset and
region the endpoint does return 200 with the scan rows, but a returned
row carries 14 fields, not 13; moreover a region string that is present
in the data but empty is answered with the missing-parameter 400, not
200. -/
theorem regionData_thirteen_fields_refuted :
    (regionData demoData (some "Dubai")).body =
      .rowsBody [regionRow demoCampaign1 demoRP] ∧
    ((regionRow demoCampaign1 demoRP).map Prod.fst).length = 14 ∧
    (regionData demoEmptyRegionData (some "")).status = 400 := by
  refine ⟨?_, rfl, rfl⟩
  rfl

/-- Both credential handlers, after a passed password check, run the same
closed three-way role branch. -/
theorem roleBranch_cases (user : User) (md : MarketingData) :
    (user.role = "admin" →
      roleBranch user md =
        ⟨200, .grantBody "Access granted - Admin user authenticated" (summaryOf user) md⟩) ∧
    (user.role = "user" →
      roleBranch user md =
        ⟨403, .denyBody "Access denied" "User must be an admin to access this data."
          (summaryOf user)⟩) ∧
    (user.role ≠ "admin" → user.role ≠ "user" →
      roleBranch user md = ⟨403, .errorBody "Access denied" "User not found"⟩) := by
  refine ⟨?_, ?_, ?_⟩
  · intro h
    rw [roleBranch, if_pos (by simp [h])]
  · intro h
    rw [roleBranch, if_neg (by simp [h]), if_pos (by simp [h])]
  · intro h1 h2
    rw [roleBranch, if_neg (by simp [h1]), if_neg (by simp [h2])]

/-- /simple-protected-data reaches the role branch exactly on found user
and matching plaintext password. -/
theorem simpleProtectedData_auth_eq (users : List User) (md : MarketingData)
    (u p : String) (usr : User) (hu : u ≠ "") (hp : p ≠ "")
    (hfind : users.find? (fun x => x.username == u) = some usr)
    (hmatch : usr.password = p) :
    simpleProtectedData users md (some u) (some p) = roleBranch usr md := by
  rw [simpleProtectedData, if_neg (by simp [hu, hp])]
  simp only [Option.getD_some, hfind]
  rw [if_neg (by simp [hmatch])]

/-- /encrypted-protected-data reaches the role branch exactly on found
user and decoded-equal passwords. -/
theorem encryptedProtectedData_auth_eq (users : List User) (md : MarketingData)
    (u p : String) (usr : User) (hu : u ≠ "") (hp : p ≠ "")
    (hfind : users.find? (fun x => x.username == u) = some usr)
    (hmatch : simpleDecrypt usr.password = simpleDecrypt p) :
    encryptedProtectedData users md (some u) (some p) = roleBranch usr md := by
  rw [encryptedProtectedData, if_neg (by simp [hu, hp])]
  simp only [Option.getD_some, hfind]
  rw [if_neg (by simp [hmatch])]


/-- C2: in both credential endpoints, once the supplied password matches
the stored one (decoded for the encrypted endpoint), the role decision
has exactly three paths: role admin grants 200 with the full campaigns
document and a user summary; role user denies with 403, an explanatory
message and a user summary but no campaign data; any other role denies
with 403 and a generic message, with neither campaign data nor user
summary in the body. -/
theorem credential_role_three_way (users : List User) (md : MarketingData)
    (u p : String) (usr : User) (hu : u ≠ "") (hp : p ≠ "")
    (hfind : users.find? (fun x => x.username == u) = some usr) :
    (usr.password = p →
      ((usr.role = "admin" → simpleProtectedData users md (some u) (some p) =
          ⟨200, .grantBody "Access granted - Admin user authenticated" (summaryOf usr) md⟩) ∧
       (usr.role = "user" → simpleProtectedData users md (some u) (some p) =
          ⟨403, .denyBody "Access denied" "User must be an admin to access this data."
            (summaryOf usr)⟩) ∧
       (usr.role ≠ "admin" → usr.role ≠ "user" →
          simpleProtectedData users md (some u) (some p) =
            ⟨403, .errorBody "Access denied" "User not found"⟩))) ∧
    (simpleDecrypt usr.password = simpleDecrypt p →
      ((usr.role = "admin" → encryptedProtectedData users md (some u) (some p) =
          ⟨200, .grantBody "Access granted - Admin user authenticated" (summaryOf usr) md⟩) ∧
       (usr.role = "user" → encryptedProtectedData users md (some u) (some p) =
          ⟨403, .denyBody "Access denied" "User must be an admin to access this data."
            (summaryOf usr)⟩) ∧
       (usr.role ≠ "admin" → usr.role ≠ "user" →
          encryptedProtectedData users md (some u) (some p) =
            ⟨403, .errorBody "Access denied" "User not found"⟩))) := by
  have hrb := roleBranch_cases usr md
  constructor
  · intro hm
    refine ⟨fun hr => ?_, fun hr => ?_, fun h1 h2 => ?_⟩ <;>
      rw [simpleProtectedData_auth_eq users md u p usr hu hp hfind hm]
    · exact hrb.1 hr
    · exact hrb.2.1 hr
    · exact hrb.2.2 h1 h2
  · intro hm
    refine ⟨fun hr => ?_, fun hr => ?_, fun h1 h2 => ?_⟩ <;>
      rw [encryptedProtectedData_auth_eq users md u p usr hu hp hfind hm]
    · exact hrb.1 hr
    · exact hrb.2.1 hr
    · exact hrb.2.2 h1 h2

theorem credential_role_three_way_witness :
    simpleProtectedData demoUsers demoData (some "ahmed_hassan") (some "ahmedadmin123") =
      ⟨200, .grantBody "Access granted - Admin user authenticated"
        ⟨1, "ahmed_hassan", "ahmed@amana.com", "admin"⟩ demoData⟩ ∧
    encryptedProtectedData demoEncUsers demoData (some "omar_mahmoud") (some "vthy789whzz") =
      ⟨403, .denyBody "Access denied" "User must be an admin to access this data."
        ⟨2, "omar_mahmoud", "omar@amana.com", "user"⟩⟩ := by
  constructor
  · have h := credential_role_three_way demoUsers demoData "ahmed_hassan" "ahmedadmin123"
      ⟨1, "ahmed_hassan", "ahmedadmin123", "ahmed@amana.com", "admin"⟩
      (by decide) (by decide) (by decide)
    exact (h.1 rfl).1 rfl
  · have h := credential_role_three_way demoEncUsers demoData "omar_mahmoud" "vthy789whzz"
      ⟨2, "omar_mahmoud", "vthy789whzz", "omar@amana.com", "user"⟩
      (by decide) (by decide) (by decide)
    exact (h.2 rfl).2.1 rfl

/-- C6: in both credential endpoints the error body's message field is
the same string, User not found, whether the cause is an unknown
username (404) or a wrong password for an existing username (401), and
the wrong-password case carries error Invalid credentials. -/
theorem credential_error_messages (users : List User) (md : MarketingData)
    (u p : String) (hu : u ≠ "") (hp : p ≠ "") :
    (users.find? (fun x => x.username == u) = none →
      simpleProtectedData users md (some u) (some p) =
        ⟨404, .errorBody "User not found" "User not found"⟩ ∧
      encryptedProtectedData users md (some u) (some p) =
        ⟨404, .errorBody "User not found" "User not found"⟩) ∧
    (∀ usr, users.find? (fun x => x.username == u) = some usr →
      (usr.password ≠ p →
        simpleProtectedData users md (some u) (some p) =
          ⟨401, .errorBody "Invalid credentials" "User not found"⟩) ∧
      (simpleDecrypt usr.password ≠ simpleDecrypt p →
        encryptedProtectedData users md (some u) (some p) =
          ⟨401, .errorBody "Invalid credentials" "User not found"⟩)) := by
  constructor
  · intro hfind
    constructor
    · rw [simpleProtectedData, if_neg (by simp [hu, hp])]
      simp only [Option.getD_some, hfind]
    · rw [encryptedProtectedData, if_neg (by simp [hu, hp])]
      simp only [Option.getD_some, hfind]
  · intro usr hfind
    constructor
    · intro hmm
      rw [simpleProtectedData, if_neg (by simp [hu, hp])]
      simp only [Option.getD_some, hfind]
      rw [if_pos hmm]
    · intro hmm
      rw [encryptedProtectedData, if_neg (by simp [hu, hp])]
      simp only [Option.getD_some, hfind]
      rw [if_pos hmm]

theorem credential_error_messages_witness :
    simpleProtectedData demoUsers demoData (some "unknown_user") (some "whatever") =
      ⟨404, .errorBody "User not found" "User not found"⟩ ∧
    simpleProtectedData demoUsers demoData (some "ahmed_hassan") (some "wrongpass") =
      ⟨401, .errorBody "Invalid credentials" "User not found"⟩ ∧
    encryptedProtectedData demoEncUsers demoData (some "ahmed_hassan") (some "wrongpass1") =
      ⟨401, .errorBody "Invalid credentials" "User not found"⟩ := by
  refine ⟨?_, ?_, ?_⟩
  · exact ((credential_error_messages demoUsers demoData "unknown_user" "whatever"
      (by decide) (by decide)).1 (by decide)).1
  · exact ((credential_error_messages demoUsers demoData "ahmed_hassan" "wrongpass"
      (by decide) (by decide)).2
        ⟨1, "ahmed_hassan", "ahmedadmin123", "ahmed@amana.com", "admin"⟩ (by decide)).1
      (by decide)
  · exact ((credential_error_messages demoEncUsers demoData "ahmed_hassan" "wrongpass1"
      (by decide) (by decide)).2
        ⟨1, "ahmed_hassan", "hotlkhktpu123", "ahmed@amana.com", "admin"⟩ (by decide)).2
      (by decide)

/-- C7: for a username found in the obfuscated user dataset, the handler
gets past the 401 branch exactly when the decode applied to the stored
credential and to the supplied candidate gives equal strings. -/
theorem encrypted_password_decode_gate (users : List User) (md : MarketingData)
    (u p : String) (usr : User) (hu : u ≠ "") (hp : p ≠ "")
    (hfind : users.find? (fun x => x.username == u) = some usr) :
    (encryptedProtectedData users md (some u) (some p)).status ≠ 401 ↔
      simpleDecrypt usr.password = simpleDecrypt p := by
  constructor
  · intro hne
    by_contra hneq
    have h401 : encryptedProtectedData users md (some u) (some p) =
        ⟨401, .errorBody "Invalid credentials" "User not found"⟩ := by
      rw [encryptedProtectedData, if_neg (by simp [hu, hp])]
      simp only [Option.getD_some, hfind]
      rw [if_pos hneq]
    rw [h401] at hne
    exact hne rfl
  · intro heq
    rw [encryptedProtectedData_auth_eq users md u p usr hu hp hfind heq]
    rw [roleBranch]
    split_ifs <;> simp

theorem encrypted_password_decode_gate_witness :
    (encryptedProtectedData demoEncUsers demoData
        (some "ahmed_hassan") (some "hotlkhktpu123")).status ≠ 401 := by
  have h := encrypted_password_decode_gate demoEncUsers demoData
    "ahmed_hassan" "hotlkhktpu123"
    ⟨1, "ahmed_hassan", "hotlkhktpu123", "ahmed@amana.com", "admin"⟩
    (by decide) (by decide) (by decide)
  exact h.mpr rfl

/-- The nested push-accumulation of the creative scan, described as a
`flatMap`: per campaign (in order), the rows of its matching creatives
(in order), campaigns without a collection contributing nothing. -/
theorem creativeRowsAcc_eq_flatMap (campaigns : List Campaign) (nids : List Int) :
    creativeRowsAcc campaigns nids =
      campaigns.flatMap (fun c =>
        ((c.creatives.getD []).filter (fun cr => nids.contains cr.id)).map (creativeRow c)) := by
  have hinner : ∀ (c : Campaign) (cs : List Creative) (init : List CreativeRow),
      cs.foldl (fun acc2 creative =>
        if nids.contains creative.id then acc2 ++ [creativeRow c creative] else acc2) init
      = init ++ (cs.filter (fun cr => nids.contains cr.id)).map (creativeRow c) := by
    intro c cs
    induction cs with
    | nil => intro init; simp
    | cons cr crs ih =>
        intro init
        rw [List.foldl_cons]
        by_cases hm : nids.contains cr.id = true
        · rw [if_pos hm, ih, List.filter_cons, if_pos hm, List.map_cons]
          simp only [List.append_assoc, List.singleton_append]
        · rw [if_neg hm, ih, List.filter_cons, if_neg hm]
  have houter : ∀ (l : List Campaign) (init : List CreativeRow),
      l.foldl
        (fun acc campaign =>
          match campaign.creatives with
          | some cs =>
              cs.foldl
                (fun acc2 creative =>
                  if nids.contains creative.id then acc2 ++ [creativeRow campaign creative]
                  else acc2)
                acc
          | none => acc)
        init
      = init ++ l.flatMap (fun c =>
          ((c.creatives.getD []).filter (fun cr => nids.contains cr.id)).map (creativeRow c)) := by
    intro l
    induction l with
    | nil => intro init; simp
    | cons c cs ih =>
        intro init
        rw [List.foldl_cons, List.flatMap_cons]
        cases hcs : c.creatives with
        | none =>
            simp only [hcs, Option.getD_none, List.filter_nil, List.map_nil]
            rw [ih]
            simp
        | some cs2 =>
            simp only [hcs, Option.getD_some]
            rw [hinner c cs2 init, ih]
            simp
  rw [creativeRowsAcc, houter campaigns []]
  simp

/-- The number of accumulated creative rows is the number of matching
creatives across all campaigns, in the flattened creative list. -/
theorem creativeRowsAcc_length (campaigns : List Campaign) (nids : List Int) :
    (creativeRowsAcc campaigns nids).length =
      ((campaigns.flatMap (fun c => c.creatives.getD [])).filter
        (fun cr => nids.contains cr.id)).length := by
  rw [creativeRowsAcc_eq_flatMap]
  induction campaigns with
  | nil => rfl
  | cons c cs ih =>
      rw [List.flatMap_cons, List.flatMap_cons, List.filter_append, List.length_append,
        List.length_append, List.length_map, ih]

/-- Counting matching creatives by their ids. -/
theorem length_filter_contains_map_id (l : List Creative) (nids : List Int) :
    (l.filter (fun cr => nids.contains cr.id)).length =
      ((l.map Creative.id).filter (fun i => nids.contains i)).length := by
  induction l with
  | nil => rfl
  | cons cr t ih =>
      rw [List.map_cons, List.filter_cons, List.filter_cons]
      by_cases h : nids.contains cr.id = true
      · rw [if_pos h, if_pos h, List.length_cons, List.length_cons, ih]
      · rw [if_neg h, if_neg h, ih]

/-- For a duplicate-free list `A`, the number of its elements lying in `B`
equals the number of distinct elements of `B` lying in `A`. -/
theorem length_filter_contains_comm {A : List Int} (hA : A.Nodup) (B : List Int) :
    (A.filter (fun a => B.contains a)).length =
      (B.dedup.filter (fun b => A.contains b)).length := by
  have h1 : (A.filter (fun a => B.contains a)).Nodup := hA.filter _
  have h2 : (B.dedup.filter (fun b => A.contains b)).Nodup := (List.nodup_dedup B).filter _
  rw [← List.toFinset_card_of_nodup h1, ← List.toFinset_card_of_nodup h2]
  congr 1
  ext x
  simp only [List.mem_toFinset, List.mem_filter, List.mem_dedup, List.elem_iff]
  exact and_comm


/-- /creative-data, missing or non-array body branch. -/
theorem creativeData_none_eq (data : MarketingData) :
    creativeData data none =
      ⟨400, .errorBody "Missing or invalid creative IDs"
        "creativeIds must be provided as an array in the request body"⟩ := rfl

/-- /creative-data, empty array branch. -/
theorem creativeData_nil_eq (data : MarketingData) :
    creativeData data (some []) =
      ⟨400, .errorBody "Empty creative IDs array" "Please provide at least one creative ID"⟩ := rfl

/-- /creative-data, all-ids-non-numeric branch. -/
theorem creativeData_allnan_eq (data : MarketingData) (ids : List JSValue)
    (h1 : ids ≠ []) (h2 : ids.filterMap parseCreativeIdVal = []) :
    creativeData data (some ids) =
      ⟨400, .errorBody "Invalid creative IDs" "All creative IDs must be valid numbers"⟩ := by
  simp only [creativeData]
  rw [if_neg (by simp [h1]), if_pos (by simp [h2])]

/-- /creative-data, no-matching-creative branch. -/
theorem creativeData_nomatch_eq (data : MarketingData) (ids : List JSValue)
    (h1 : ids ≠ []) (h2 : ids.filterMap parseCreativeIdVal ≠ [])
    (h3 : creativeRowsAcc data.campaigns (ids.filterMap parseCreativeIdVal) = []) :
    creativeData data (some ids) =
      ⟨404, .errorBody "No creatives found"
        ("No creatives found for the provided IDs: " ++
          String.intercalate ", " (ids.map JSValue.joinToString))⟩ := by
  simp only [creativeData]
  rw [if_neg (by simp [h1]), if_neg (by simp [h2]), if_pos (by simp [h3])]

/-- /creative-data, success branch. -/
theorem creativeData_success_eq (data : MarketingData) (ids : List JSValue)
    (h1 : ids ≠ []) (h2 : ids.filterMap parseCreativeIdVal ≠ [])
    (h3 : creativeRowsAcc data.campaigns (ids.filterMap parseCreativeIdVal) ≠ []) :
    creativeData data (some ids) =
      ⟨200, .successBody "Creative performance data retrieved successfully" ids
        (creativeRowsAcc data.campaigns (ids.filterMap parseCreativeIdVal)).length
        (creativeRowsAcc data.campaigns (ids.filterMap parseCreativeIdVal))⟩ := by
  simp only [creativeData]
  rw [if_neg (by simp [h1]), if_neg (by simp [h2]), if_neg (by simp [h3])]

/-- Restricting a list to the entries on which `f` succeeds does not
change its `filterMap`. -/
theorem filterMap_filter_isSome {α β : Type} (f : α → Option β) (l : List α) :
    (l.filter (fun v => (f v).isSome)).filterMap f = l.filterMap f := by
  induction l with
  | nil => rfl
  | cons a t ih =>
      rw [List.filter_cons]
      cases hfa : f a with
      | none =>
          rw [if_neg (by simp [hfa]), ih]
          simp only [List.filterMap_cons, hfa]
      | some b =>
          rw [if_pos (by simp [hfa])]
          simp only [List.filterMap_cons, hfa]
          rw [ih]


/-- `creative.a_b_test_variant || null` projects to `null` exactly on the
falsy stored values: absent, null, empty string, false, or 0. -/
theorem creativeRow_variant_null_iff (c : Campaign) (cr : Creative) :
    (creativeRow c cr).a_b_test_variant = .jnull ↔
      (cr.a_b_test_variant = .jundefined ∨ cr.a_b_test_variant = .jnull ∨
       cr.a_b_test_variant = .jstr "" ∨ cr.a_b_test_variant = .jbool false ∨
       cr.a_b_test_variant = .jnum 0) := by
  show (if cr.a_b_test_variant.falsy then JSValue.jnull else cr.a_b_test_variant) = .jnull ↔ _
  cases hv : cr.a_b_test_variant with
  | jundefined => simp [JSValue.falsy]
  | jnull => simp [JSValue.falsy]
  | jbool b => cases b <;> simp [JSValue.falsy]
  | jnum n => by_cases hn : n = 0 <;> simp [JSValue.falsy, hn]
  | jstr s => by_cases hs0 : s = "" <;> simp [JSValue.falsy, hs0]

/-- C10: every row in a 200 response of POST /creative-data comes from a
matched creative of some campaign, and its a_b_test_variant field is
exactly null precisely when the creative's stored a_b_test_variant is a
falsy value: absent, null, the empty string, false, or 0 - not only when
the field is absent. -/
theorem creativeData_variant_null_iff_falsy (data : MarketingData) (ids : List JSValue)
    (m : String) (req : List JSValue) (k : Nat) (rows : List CreativeRow)
    (hsucc : (creativeData data (some ids)).body = .successBody m req k rows) :
    ∀ row ∈ rows, ∃ c ∈ data.campaigns, ∃ cs, c.creatives = some cs ∧ ∃ cr ∈ cs,
      row = creativeRow c cr ∧
      (row.a_b_test_variant = .jnull ↔
        (cr.a_b_test_variant = .jundefined ∨ cr.a_b_test_variant = .jnull ∨
         cr.a_b_test_variant = .jstr "" ∨ cr.a_b_test_variant = .jbool false ∨
         cr.a_b_test_variant = .jnum 0)) := by
  have hrows : rows = creativeRowsAcc data.campaigns (ids.filterMap parseCreativeIdVal) := by
    by_cases h1 : ids = []
    · subst h1
      rw [creativeData_nil_eq] at hsucc
      simp at hsucc
    · by_cases h2 : ids.filterMap parseCreativeIdVal = []
      · rw [creativeData_allnan_eq data ids h1 h2] at hsucc
        simp at hsucc
      · by_cases h3 : creativeRowsAcc data.campaigns (ids.filterMap parseCreativeIdVal) = []
        · rw [creativeData_nomatch_eq data ids h1 h2 h3] at hsucc
          simp at hsucc
        · rw [creativeData_success_eq data ids h1 h2 h3] at hsucc
          simp only [CreativeDataBody.successBody.injEq] at hsucc
          exact hsucc.2.2.2.symm
  subst hrows
  intro row hrow
  rw [creativeRowsAcc_eq_flatMap, List.mem_flatMap] at hrow
  obtain ⟨c, hc, hrow2⟩ := hrow
  rw [List.mem_map] at hrow2
  obtain ⟨cr, hcrf, hcreq⟩ := hrow2
  rw [List.mem_filter] at hcrf
  obtain ⟨hcrmem, _⟩ := hcrf
  cases hcs : c.creatives with
  | none =>
      rw [hcs] at hcrmem
      cases hcrmem
  | some cs =>
      rw [hcs] at hcrmem
      simp only [Option.getD_some] at hcrmem
      refine ⟨c, hc, cs, hcs, cr, hcrmem, hcreq.symm, ?_⟩
      rw [← hcreq]
      exact creativeRow_variant_null_iff c cr

theorem creativeData_variant_null_iff_falsy_witness :
    ∃ c ∈ demoData.campaigns, ∃ cs, c.creatives = some cs ∧ ∃ cr ∈ cs,
      creativeRow demoCampaign1 demoCreativeFalsy = creativeRow c cr ∧
      ((creativeRow demoCampaign1 demoCreativeFalsy).a_b_test_variant = .jnull ↔
        (cr.a_b_test_variant = .jundefined ∨ cr.a_b_test_variant = .jnull ∨
         cr.a_b_test_variant = .jstr "" ∨ cr.a_b_test_variant = .jbool false ∨
         cr.a_b_test_variant = .jnum 0)) := by
  have h := creativeData_variant_null_iff_falsy demoData [.jnum 102]
    "Creative performance data retrieved successfully" [.jnum 102] 1
    [creativeRow demoCampaign1 demoCreativeFalsy] (by decide)
  exact h (creativeRow demoCampaign1 demoCreativeFalsy) (by simp)


/-- C3: when the dataset satisfies its invariant that creative ids are
globally unique, the found_creatives count of a 200 response equals the
number of distinct requested ids that resolve to an actual creative;
non-numeric entries are dropped without affecting the response status
(in particular the 400-versus-200 decision), and a nonempty list whose
entries are all non-numeric is answered 400. -/
theorem creativeData_found_count (data : MarketingData) (ids : List JSValue)
    (hnd : ((data.campaigns.flatMap (fun c => c.creatives.getD [])).map Creative.id).Nodup) :
    ((ids.filterMap parseCreativeIdVal).dedup.filter (fun n =>
        ((data.campaigns.flatMap (fun c => c.creatives.getD [])).map Creative.id).contains n)
          ≠ [] →
      creativeData data (some ids) =
        ⟨200, .successBody "Creative performance data retrieved successfully" ids
          ((ids.filterMap parseCreativeIdVal).dedup.filter (fun n =>
            ((data.campaigns.flatMap (fun c => c.creatives.getD [])).map Creative.id).contains
              n)).length
          (creativeRowsAcc data.campaigns (ids.filterMap parseCreativeIdVal))⟩) ∧
    (ids ≠ [] → ids.filterMap parseCreativeIdVal = [] →
      (creativeData data (some ids)).status = 400) ∧
    ((creativeData data
        (some (ids.filter (fun v => (parseCreativeIdVal v).isSome)))).status =
      (creativeData data (some ids)).status) := by
  have hcount : (creativeRowsAcc data.campaigns (ids.filterMap parseCreativeIdVal)).length =
      ((ids.filterMap parseCreativeIdVal).dedup.filter (fun n =>
        ((data.campaigns.flatMap (fun c => c.creatives.getD [])).map Creative.id).contains
          n)).length := by
    rw [creativeRowsAcc_length, length_filter_contains_map_id,
      length_filter_contains_comm hnd]
  refine ⟨?_, ?_, ?_⟩
  · intro hres
    have h2 : ids.filterMap parseCreativeIdVal ≠ [] := by
      intro h
      rw [h] at hres
      exact hres rfl
    have h1 : ids ≠ [] := by
      rintro rfl
      exact h2 rfl
    have h3 : creativeRowsAcc data.campaigns (ids.filterMap parseCreativeIdVal) ≠ [] := by
      intro h
      apply hres
      have := hcount
      rw [h] at this
      exact List.eq_nil_of_length_eq_zero this.symm
    rw [creativeData_success_eq data ids h1 h2 h3, hcount]
  · intro h1 h2
    rw [creativeData_allnan_eq data ids h1 h2]
  · by_cases h2 : ids.filterMap parseCreativeIdVal = []
    · have hfids : ids.filter (fun v => (parseCreativeIdVal v).isSome) = [] := by
        rw [List.filter_eq_nil_iff]
        intro v hv
        rw [List.filterMap_eq_nil_iff] at h2
        simp [h2 v hv]
      rw [hfids, creativeData_nil_eq]
      by_cases h1 : ids = []
      · rw [h1, creativeData_nil_eq]
      · rw [creativeData_allnan_eq data ids h1 h2]
    · have h1 : ids ≠ [] := by
        rintro rfl
        exact h2 rfl
      have hpeq : (ids.filter (fun v => (parseCreativeIdVal v).isSome)).filterMap
          parseCreativeIdVal = ids.filterMap parseCreativeIdVal :=
        filterMap_filter_isSome parseCreativeIdVal ids
      have hfne : ids.filter (fun v => (parseCreativeIdVal v).isSome) ≠ [] := by
        intro hnil
        apply h2
        rw [← hpeq, hnil]
        rfl
      have h2f : (ids.filter (fun v => (parseCreativeIdVal v).isSome)).filterMap
          parseCreativeIdVal ≠ [] := by
        rw [hpeq]
        exact h2
      by_cases h3 : creativeRowsAcc data.campaigns (ids.filterMap parseCreativeIdVal) = []
      · rw [creativeData_nomatch_eq data ids h1 h2 h3,
          creativeData_nomatch_eq data _ hfne h2f (by rw [hpeq]; exact h3)]
      · rw [creativeData_success_eq data ids h1 h2 h3,
          creativeData_success_eq data _ hfne h2f (by rw [hpeq]; exact h3)]

theorem creativeData_found_count_witness :
    creativeData demoData (some [.jnum 101, .jstr "abc", .jnum 999, .jstr "101"]) =
      ⟨200, .successBody "Creative performance data retrieved successfully"
        [.jnum 101, .jstr "abc", .jnum 999, .jstr "101"] 1
        (creativeRowsAcc demoData.campaigns
          ([JSValue.jnum 101, .jstr "abc", .jnum 999, .jstr "101"].filterMap
            parseCreativeIdVal))⟩ ∧
    (creativeData demoData (some [.jstr "abc", .jbool true])).status = 400 := by
  have h := creativeData_found_count demoData
    [.jnum 101, .jstr "abc", .jnum 999, .jstr "101"] (by decide)
  have h2 := creativeData_found_count demoData [.jstr "abc", .jbool true] (by decide)
  exact ⟨h.1 (by decide), h2.2.1 (by decide) (by decide)⟩

end AmanaMarketing
